import Mathlib

/-!
Verification development for the BackgroundWorker repository
(gstream-library, background-service, worker-service).

The Python sources are shallowly embedded:
  * byte strings are `List Nat` (each element a byte value 0..255);
  * Python `str` values are `List Char` (`Str`), built from Lean string
    literals via `strOf`;
  * Python `int` is `Int` (arbitrary precision);
  * IEEE-754 doubles are carried as their 64-bit pattern (`Nat < 2^64`),
    since the codec only copies their bytes and range-checks the value;
  * fallible Python code (uncaught exceptions) is modelled with `Option`;
  * the Redis store is a finite map `List (Str × RedisValue)` keyed by the
    literal key strings the source builds, so that glob patterns
    (`KEYS pattern`) and literal key commands (`DEL name`) are
    distinguished exactly as Redis distinguishes them.
-/

abbrev Str : Type := List Char

def strOf (s : String) : Str := s.data

/-- Fuel-driven core of the Redis KEYS glob matcher: `*` matches any
(possibly empty) sequence of characters, every other character matches
itself.  The fuel `p.length + s.length + 1` is always sufficient because
every recursive call shrinks `p.length + s.length`. -/
def globMatchFuel : Nat → List Char → List Char → Bool
  | 0, _, _ => false
  | _ + 1, [], s => s.isEmpty
  | fuel + 1, '*' :: ps, [] => globMatchFuel fuel ps []
  | fuel + 1, '*' :: ps, c :: cs =>
      globMatchFuel fuel ps (c :: cs) || globMatchFuel fuel ('*' :: ps) cs
  | fuel + 1, p :: ps, c :: cs => (p == c) && globMatchFuel fuel ps cs
  | _ + 1, _ :: _, [] => false

/-- Redis glob match of a pattern against a key. -/
def globMatch (p s : List Char) : Bool :=
  globMatchFuel (p.length + s.length + 1) p s

/-- Python `text.split(':')` on a character list. -/
def splitOnColon : List Char → List (List Char)
  | [] => [[]]
  | c :: rest =>
    let r := splitOnColon rest
    if c = ':' then [] :: r
    else
      match r with
      | h :: t => (c :: h) :: t
      | [] => [[c]]

/-- Python slice `bs[i:j]` with Python's negative-index and clamping rules
(step 1, both bounds given). -/
def pySlice (bs : List Nat) (i j : Int) : List Nat :=
  let n : Int := bs.length
  let i' : Int := if i < 0 then max 0 (n + i) else min i n
  let j' : Int := if j < 0 then max 0 (n + j) else min j n
  (bs.take j'.toNat).drop i'.toNat

theorem pySlice_nat (bs : List Nat) (i j : Nat) (hj : j ≤ bs.length) :
    pySlice bs i j = (bs.take j).drop i := by
  simp only [pySlice]
  have h1 : ¬((i : Int) < 0) := by omega
  have h2 : ¬((j : Int) < 0) := by omega
  rw [if_neg h1, if_neg h2]
  have h3 : min (i : Int) bs.length = if i ≤ bs.length then (i : Int) else bs.length := by
    split <;> omega
  have h4 : min (j : Int) bs.length = (j : Int) := by omega
  rw [h4]
  split at h3 <;> rw [h3]
  · simp
  · have hlen : (bs.take j).length ≤ i := by
      simp only [List.length_take]
      omega
    rw [List.drop_eq_nil_of_le hlen]
    rw [List.drop_eq_nil_of_le]
    simp only [List.length_take, Int.toNat_natCast]
    omega

/-! ## Binary codec (gstream/files/binary.py)

`IntType` packs with the native format `'i'` (4-byte little-endian
two's-complement), `DoubleType` with `'d'` (8 bytes), `CharType` with
`'Ns'` (the raw ASCII bytes).  `pack` validates first: integers must lie
in `[-2·10⁹, 2·10⁹]`, doubles in `[-10¹⁴, 10¹⁴]`, strings/lists must be
non-empty.  Failures raise, hence `Option`. -/

def intInRange (v : Int) : Bool :=
  decide (-2000000000 ≤ v ∧ v ≤ 2000000000)

/-- Little-endian 4-byte two's-complement image of a Python int packed
with struct format 'i'. -/
def intToBytes (v : Int) : List Nat :=
  let u := (v % 4294967296).toNat
  [u % 256, u / 256 % 256, u / 65536 % 256, u / 16777216 % 256]

/-- Value decoded by struct.unpack format 'i' from 4 bytes. -/
def bytesToInt4 (b0 b1 b2 b3 : Nat) : Int :=
  let u := b0 + 256 * b1 + 65536 * b2 + 16777216 * b3
  if u < 2147483648 then (u : Int) else (u : Int) - 4294967296

def bytesToIntList : List Nat → List Int
  | b0 :: b1 :: b2 :: b3 :: rest => bytesToInt4 b0 b1 b2 b3 :: bytesToIntList rest
  | _ => []

/-- IntType.pack on a list (a scalar argument is wrapped into a
one-element list by the source before packing). -/
def intTypePack (obj : List Int) : Option (List Nat) :=
  if obj.isEmpty then none
  else if obj.all intInRange then some (obj.map intToBytes).flatten
  else none

/-- IntType.unpack: struct.unpack requires the byte count to be exactly
4 times the requested number count. -/
def intTypeUnpack (value : List Nat) (numbersCount : Nat) : Option (List Int) :=
  if value.length = 4 * numbersCount then some (bytesToIntList value) else none

theorem intToBytes_length (v : Int) : (intToBytes v).length = 4 := rfl

theorem bytesToIntList_intToBytes (v : Int) (rest : List Nat)
    (h1 : -2147483648 ≤ v) (h2 : v < 2147483648) :
    bytesToIntList (intToBytes v ++ rest) = v :: bytesToIntList rest := by
  simp only [intToBytes, List.cons_append, List.nil_append, bytesToIntList, bytesToInt4]
  congr 1
  have hmod : v % 4294967296 = if 0 ≤ v then v else v + 4294967296 := by
    split <;> omega
  split at hmod <;> · rw [hmod]; split <;> omega

/-- CharType.pack: the raw ASCII bytes of the (non-empty) string. -/
def charTypePack (s : Str) : Option (List Nat) :=
  if s.isEmpty then none else some (s.map Char.toNat)

/-- CharType.unpack with a declared symbol count: struct.unpack format
'Ns' requires exactly N bytes and returns them decoded.  (The UTF-8
decode step is the identity on the ASCII tags this codec ever reads;
a genuinely invalid byte sequence would raise an uncaught decode error,
which also lands in `none` here.) -/
def charTypeUnpack (value : List Nat) (symbolsCount : Nat) : Option (List Nat) :=
  if value.length = symbolsCount then some value else none

/-- Exact value of a finite IEEE-754 double with the given unbiased
fields, compared against the codec's bound 10¹⁴; stated over naturals
(`M·2^E ≤ 10¹⁴·2^1075` iff `|value| ≤ 10¹⁴`) so everything is kernel
arithmetic.  NaN (exp 2047, mantissa ≠ 0) passes the source's check
because both comparisons are false on NaN; ±inf fails it. -/
def isDoubleInRange (bits : Nat) : Bool :=
  let e := bits / 2 ^ 52 % 2 ^ 11
  let m := bits % 2 ^ 52
  if e = 2047 then decide (m ≠ 0)
  else
    let mantissa := if e = 0 then m else 2 ^ 52 + m
    let exp := if e = 0 then 1 else e
    decide (mantissa * 2 ^ exp ≤ 10 ^ 14 * 2 ^ 1075)

/-- Little-endian 8-byte image of a double (struct format 'd'). -/
def doubleToBytes (bits : Nat) : List Nat :=
  [bits % 256, bits / 256 % 256, bits / 65536 % 256, bits / 16777216 % 256,
   bits / 4294967296 % 256, bits / 1099511627776 % 256,
   bits / 281474976710656 % 256, bits / 72057594037927936 % 256]

def bytesToDouble : List Nat → Option Nat
  | [b0, b1, b2, b3, b4, b5, b6, b7] =>
      some (b0 + 256 * b1 + 65536 * b2 + 16777216 * b3 + 4294967296 * b4 +
        1099511627776 * b5 + 281474976710656 * b6 + 72057594037927936 * b7)
  | _ => none

def doubleTypePack (bits : Nat) : Option (List Nat) :=
  if isDoubleInRange bits then some (doubleToBytes bits) else none

theorem doubleToBytes_length (bits : Nat) : (doubleToBytes bits).length = 8 := rfl

theorem bytesToDouble_doubleToBytes (bits : Nat) (h : bits < 2 ^ 64) :
    bytesToDouble (doubleToBytes bits) = some bits := by
  simp only [doubleToBytes, bytesToDouble, Option.some.injEq]
  omega

/-! ## Array envelope (gstream/models.py, class Array)

The pydantic validator on `type_` restricts it to the two enum values
'int32' and 'float32', so the type field is embedded as a closed variant
whose `tag` is the ASCII byte string the codec writes. -/

inductive PyArrayType
  | int32
  | float32
deriving DecidableEq, Repr

/-- ASCII bytes of the type tag ('int32' / 'float32'). -/
def PyArrayType.tag : PyArrayType → List Nat
  | .int32 => [105, 110, 116, 51, 50]
  | .float32 => [102, 108, 111, 97, 116, 51, 50]

/-- np.dtype(tag).itemsize: 4 bytes for both int32 and float32. -/
def PyArrayType.elementSize : PyArrayType → Nat
  | .int32 => 4
  | .float32 => 4

structure ArrayEnvelope where
  type_ : PyArrayType
  rows_count : Int
  cols_count : Int
  data : List Nat
deriving DecidableEq, Repr

/-- Array.convert_to_bytes: CharType.pack(type tag) ‖
IntType.pack([rows, cols]) ‖ data.  (CharType.pack always succeeds here
because both tags are non-empty.)  `none` models the ValueError raised
by IntType.pack when a shape value is outside [-2·10⁹, 2·10⁹]. -/
def ArrayEnvelope.convert_to_bytes (a : ArrayEnvelope) : Option (List Nat) :=
  match intTypePack [a.rows_count, a.cols_count] with
  | none => none
  | some shapeBytes => some (a.type_.tag ++ shapeBytes ++ a.data)

/-- Array.__get_type_from_bytes: probe 'int32' first, then 'float32'
(the enum declaration order); a tag whose bytes are missing or do not
compare equal falls through; no tag matching raises TypeError. -/
def getTypeFromBytes (bs : List Nat) : Option PyArrayType :=
  if bs.take 5 = PyArrayType.int32.tag then some .int32
  else if bs.take 7 = PyArrayType.float32.tag then some .float32
  else none

/-- Array.create_from_bytes.  `none` models every exception path:
unknown tag (TypeError), truncated shape bytes (struct.error), and
`excepted > actual` (ValueError). -/
def ArrayEnvelope.create_from_bytes (bs : List Nat) : Option ArrayEnvelope :=
  match getTypeFromBytes bs with
  | none => none
  | some t =>
    let leftEdge : Nat := t.tag.length
    let rightEdge : Nat := leftEdge + 2 * 4
    match intTypeUnpack (pySlice bs leftEdge rightEdge) 2 with
    | some [rows, cols] =>
      let elementSize : Int := t.elementSize
      let actual : Int := (bs.length : Int) - rightEdge
      let excepted : Int := rows * cols * elementSize
      if excepted > actual then none
      else some ⟨t, rows, cols, pySlice bs rightEdge (rightEdge + excepted)⟩
    | _ => none

/-- Round trip of the serialized bytes through the deserializer. -/
def arrayRoundTrip (a : ArrayEnvelope) : Option ArrayEnvelope :=
  a.convert_to_bytes.bind ArrayEnvelope.create_from_bytes

/-- Domain of claim C3: the envelope either satisfies
`len(data) = rows·cols·sizeof` or is a "1-D view" (`rows = 0` or
`cols = 0`) whose data length is the non-zero dimension times the
element size. -/
def claimC3Domain (a : ArrayEnvelope) : Prop :=
  (a.data.length : Int) = a.rows_count * a.cols_count * a.type_.elementSize
  ∨ ((a.rows_count = 0 ∨ a.cols_count = 0)
      ∧ (a.data.length : Int) = max a.rows_count a.cols_count * a.type_.elementSize)

instance (a : ArrayEnvelope) : Decidable (claimC3Domain a) := by
  unfold claimC3Domain
  infer_instance

/-! ## DelaysFinderParameters (gstream/models.py) -/

structure DelaysFinderParameters where
  signals : ArrayEnvelope
  window_size : Int
  scanner_size : Int
  /-- IEEE-754 bit pattern of the min_correlation double. -/
  min_correlation : Nat
  base_station_index : Int
deriving DecidableEq, Repr

/-- DelaysFinderParameters.convert_to_bytes:
IntType.pack([window, scanner]) ‖ DoubleType.pack(min_correlation) ‖
IntType.pack(base_station_index) ‖ signals.convert_to_bytes(). -/
def DelaysFinderParameters.convert_to_bytes
    (p : DelaysFinderParameters) : Option (List Nat) :=
  match intTypePack [p.window_size, p.scanner_size] with
  | none => none
  | some ws =>
    match doubleTypePack p.min_correlation with
    | none => none
    | some mc =>
      match intTypePack [p.base_station_index] with
      | none => none
      | some bi =>
        match p.signals.convert_to_bytes with
        | none => none
        | some sb => some (ws ++ mc ++ bi ++ sb)

/-- DelaysFinderParameters.create_from_bytes.  Field order and the
running byte offsets follow the source; the array data is everything
after offset 35 (`bytes_obj[left_index:]`, no length check).  The final
constructor runs the pydantic validators: the Array type tag must be a
known tag (7 bytes can only be 'float32'), and `__check_arguments`
raises IndexError unless `base_station_index < rows_count`. -/
def DelaysFinderParameters.create_from_bytes
    (bs : List Nat) : Option DelaysFinderParameters :=
  match intTypeUnpack (pySlice bs 0 8) 2 with
  | some [windowSize, scannerSize] =>
    match bytesToDouble (pySlice bs 8 16) with
    | none => none
    | some minCorrelation =>
      match intTypeUnpack (pySlice bs 16 20) 1 with
      | some [baseStationIndex] =>
        match charTypeUnpack (pySlice bs 20 27) 7 with
        | none => none
        | some tagBytes =>
          if tagBytes = PyArrayType.float32.tag then
            match intTypeUnpack (pySlice bs 27 35) 2 with
            | some [rowsCount, colsCount] =>
              let arrayBytes := bs.drop 35
              if baseStationIndex ≥ rowsCount then none
              else some ⟨⟨.float32, rowsCount, colsCount, arrayBytes⟩,
                windowSize, scannerSize, minCorrelation, baseStationIndex⟩
            | _ => none
          else none
      | _ => none
  | _ => none

/-! ## Task state and the Redis store
(gstream/models.py TaskState, gstream/storage/redis.py Storage)

Keys are the literal strings the source interpolates.  A value is either
a plain string (logs, the flattened filename keys) or the JSON blob
stored under `:State`; the latter is kept structured as `StateJson`,
exactly the fields of `TaskState.dict(by_alias=True)` (the `user_id` and
`task_id` fields carry `exclude=True` and are not serialized). -/

structure StateJson where
  type_ : Str
  status : Str
  is_accepted : Bool
  pid : Int
  is_need_kill : Bool
  modified_unix_time : Nat
  init_script_filename : Str
  input_args_filename : Str
  output_args_filename : Str
  script_filename : Str
deriving DecidableEq, Repr

inductive RedisValue
  | str (s : Str)
  | json (j : StateJson)
deriving DecidableEq, Repr

abbrev RStore : Type := List (Str × RedisValue)

structure TaskState where
  user_id : Str
  task_id : Str
  type_ : Str
  status : Str
  is_accepted : Bool
  pid : Int
  is_need_kill : Bool
  modified_unix_time : Nat
  init_script_filename : Str
  input_args_filename : Str
  output_args_filename : Str
  script_filename : Str
deriving DecidableEq, Repr

/-- Valid values of the TaskType enum (check_task_type). -/
def isValidTaskType (t : Str) : Bool :=
  t = strOf "delays" || t = strOf "location" || t = strOf "fault"

/-- Construction of a TaskState from stored JSON plus the `user_id` and
`task_id` recovered from the key.  Pydantic runs the validators on every
construction: `check_task_type` rejects unknown types (KeyError), and the
root validator `set_modified_datetime` overwrites `modified_unix_time`
with the current wall clock `now` — whatever the JSON said. -/
def mkTaskState (now : Nat) (uid tid : Str) (j : StateJson) : Option TaskState :=
  if isValidTaskType j.type_ then
    some ⟨uid, tid, j.type_, j.status, j.is_accepted, j.pid, j.is_need_kill,
      now, j.init_script_filename, j.input_args_filename,
      j.output_args_filename, j.script_filename⟩
  else none

/-- TaskState constructed by the API on /create: all defaulted fields
(status 'new', is_accepted false, pid -1, is_need_kill false), the root
validator stamps `now`, and the four filenames are freshly generated
uuid-based names (passed in here because uuid generation is I/O). -/
def newTaskState (now : Nat) (uid tid typ initFn inFn outFn scriptFn : Str) :
    Option TaskState :=
  if isValidTaskType typ then
    some ⟨uid, tid, typ, strOf "new", false, -1, false, now,
      initFn, inFn, outFn, scriptFn⟩
  else none

/-- TaskState.dict(by_alias=True) as stored under the :State key
(user_id and task_id excluded). -/
def serializeState (st : TaskState) : StateJson :=
  ⟨st.type_, st.status, st.is_accepted, st.pid, st.is_need_kill,
   st.modified_unix_time, st.init_script_filename, st.input_args_filename,
   st.output_args_filename, st.script_filename⟩

/-- TaskState.all_filenames: the source returns only three of the four
filename fields — `init_script_filename` is not included. -/
def TaskState.all_filenames (st : TaskState) : List Str :=
  [st.input_args_filename, st.script_filename, st.output_args_filename]

/-- TaskState.rollback. -/
def TaskState.rollback (st : TaskState) : TaskState :=
  { st with status := strOf "ready", pid := -1 }

def stateKey (uid tid : Str) : Str :=
  strOf "User:" ++ uid ++ strOf ":Task:" ++ tid ++ strOf ":State"

def logKey (tid : Str) : Str := strOf "Log:" ++ tid

/-- Redis KEYS: all stored key names matching the glob pattern. -/
def keysMatching (store : RStore) (pat : Str) : List Str :=
  (store.map Prod.fst).filter fun k => globMatch pat k

/-- Redis GET of a literal key. -/
def lookupKey (store : RStore) (k : Str) : Option RedisValue :=
  (store.find? fun kv => kv.1 = k).map Prod.snd

/-- Redis SET of a literal key (upsert). -/
def setKey (store : RStore) (k : Str) (v : RedisValue) : RStore :=
  if store.any (fun kv => kv.1 = k) then
    store.map fun kv => if kv.1 = k then (k, v) else kv
  else store ++ [(k, v)]

/-- Redis DEL of a literal key name.  DEL does not expand glob patterns:
a pattern string deletes only a key literally named like the pattern. -/
def delKey (store : RStore) (k : Str) : RStore :=
  store.filter fun kv => kv.1 ≠ k

/-- Storage.is_task_exist: any key matches `*Task:{task_id}:*`. -/
def is_task_exist (store : RStore) (tid : Str) : Bool :=
  ¬(keysMatching store (strOf "*Task:" ++ tid ++ strOf ":*")).isEmpty

/-- Storage.get_user_id: first key matching `*Task:{task_id}*` whose
4th colon-component equals the task id yields its 2nd component.
(The source indexes split results directly; keys written by this system
always have those components.) -/
def get_user_id (store : RStore) (tid : Str) : Option Str :=
  (keysMatching store (strOf "*Task:" ++ tid ++ strOf "*")).findSome? fun k =>
    let parts := splitOnColon k
    match parts[3]?, parts[1]? with
    | some t, some u => if t = tid then some u else none
    | _, _ => none

/-- Storage.get_task_state.  Raises (none) when no key exists for the
task, when the `:State` pattern strips to no single key, or when the
stored value is not the state JSON.  On success the record is rebuilt by
the pydantic constructor, which re-stamps `modified_unix_time := now`. -/
def get_task_state (now : Nat) (store : RStore) (tid : Str) : Option TaskState :=
  if ¬is_task_exist store tid then none
  else
    match keysMatching store (strOf "*Task:" ++ tid ++ strOf ":State") with
    | [k] =>
      match lookupKey store k with
      | some (.json j) =>
        match get_user_id store tid with
        | some uid => mkTaskState now uid tid j
        | none => none
      | _ => none
    | _ => none

/-- format_message: `[timestamp] text\n` (the timestamp rendering is a
parameter; its content never matters to the claims). -/
def format_message (nowStr : Str) (text : Str) : Str :=
  [ '[' ] ++ nowStr ++ [ ']', ' ' ] ++ text ++ [ '\n' ]

/-- Storage.add_log_message: create `Log:{task_id}` with the formatted
line if the pattern matches no key, else append to the matched key.
(Keys are unique in the store, so the stripped pattern result is either
empty or a single key; appending to a non-string value raises, modelled
as leaving the store unchanged — no claim exercises that path.) -/
def add_log_message (nowStr : Str) (store : RStore) (tid text : Str) : RStore :=
  match keysMatching store (logKey tid) with
  | [] => setKey store (logKey tid) (.str (format_message nowStr text))
  | [k] =>
    match lookupKey store k with
    | some (.str s) => setKey store k (.str (s ++ format_message nowStr text))
    | _ => store
  | _ => store

/-- Storage.update_task_state: SET the matched `:State` key to the JSON
serialization of the given model (no field of the model is touched, in
particular `modified_unix_time` is written exactly as held), then append
the log line 'Task state was updated'.  When the pattern strips to no
single key the subsequent SET on a None name raises (none). -/
def update_task_state (nowStr : Str) (store : RStore) (tid : Str)
    (st : TaskState) : Option RStore :=
  match keysMatching store (strOf "*Task:" ++ tid ++ strOf ":State") with
  | [k] =>
    some (add_log_message nowStr (setKey store k (.json (serializeState st)))
      tid (strOf "Task state was updated"))
  | _ => none

/-- Storage.remove_task: `DEL '*Task:{task_id}:State'` and
`DEL 'Log:{task_id}'`.  The first name is passed to DEL verbatim — DEL
takes literal key names, so no stored `User:…:Task:{id}:State` key is
ever deleted by it. -/
def remove_task (store : RStore) (tid : Str) : RStore :=
  delKey (delKey store (strOf "*Task:" ++ tid ++ strOf ":State")) (logKey tid)

/-- Storage.all_task_ids: the 4th colon-component of every key matching
`*Task:*` (one entry per key, duplicates included). -/
def all_task_ids (store : RStore) : List Str :=
  (keysMatching store (strOf "*Task:*")).map fun k => (splitOnColon k).getD 3 []

/-- Storage.active_task_ids: task ids whose state reads back with status
'running'. -/
def active_task_ids (now : Nat) (store : RStore) : List Str :=
  (all_task_ids store).filter fun tid =>
    match get_task_state now store tid with
    | some st => st.status = strOf "running"
    | none => false

/-- Storage.all_filenames: union over all task ids of
state.all_filenames (three names per task; membership is what the
callers use, so the set is kept as a list). -/
def redis_all_filenames (now : Nat) (store : RStore) : List Str :=
  (all_task_ids store).flatMap fun tid =>
    match get_task_state now store tid with
    | some st => st.all_filenames
    | none => []

/-- Storage.get_user_task_ids: the distinct 4th colon-components of keys
matching `User:{user_id}:Task:*` (a Python set; the count is what
/create uses). -/
def get_user_task_ids (store : RStore) (uid : Str) : List Str :=
  ((keysMatching store (strOf "User:" ++ uid ++ strOf ":Task:*")).map
    fun k => (splitOnColon k).getD 3 []).dedup

/-- Storage.add_task: KeyError (none) if any key for the task id exists;
otherwise mset the flattened dict_view — which contains exactly the one
`User:{uid}:Task:{tid}:State` key — and append the log line
'Task was created'. -/
def add_task (nowStr : Str) (store : RStore) (st : TaskState) : Option RStore :=
  if is_task_exist store st.task_id then none
  else
    some (add_log_message nowStr
      (setKey store (stateKey st.user_id st.task_id)
        (.json (serializeState st)))
      st.task_id (strOf "Task was created"))

/-- Status string stored under the task's `:State` key (read without the
pydantic re-stamping, for stating what a write left behind). -/
def getStoredJson (store : RStore) (tid : Str) : Option StateJson :=
  match keysMatching store (strOf "*Task:" ++ tid ++ strOf ":State") with
  | [k] =>
    match lookupKey store k with
    | some (.json j) => some j
    | _ => none
  | _ => none

/-! ## File store (gstream/storage/file_system.py)

Only filenames matter to the claims; the store is the list of names
present under the root. -/

abbrev FileStore : Type := List Str

def is_file_exist (files : FileStore) (filename : Str) : Bool :=
  files.contains filename

/-- Storage.remove_file: missing names are silently skipped. -/
def remove_file (files : FileStore) (filename : Str) : FileStore :=
  files.filter fun f => f ≠ filename

def remove_files (files : FileStore) (filenames : List Str) : FileStore :=
  filenames.foldl remove_file files

/-! ## Task pull (gstream/worker/task_pull.py)

The world visible to one pull step: the Redis store, the file store, and
the scripts spawned so far via `subprocess.Popen` (the launch
observable). -/

structure World where
  store : RStore
  files : FileStore
  spawned : List Str
deriving DecidableEq, Repr

/-- TaskPull.__is_possible_run_any_task (lines 179-187): global admission
— strictly fewer active tasks than CPU cores and host permitted RAM
positive.  `ramAvailable` stands for `gpu_rig.is_available_ram_memory`,
i.e. `ram permitted_volume > 0`. -/
def is_possible_run_any_task (now : Nat) (store : RStore)
    (cpuCores : Nat) (ramAvailable : Bool) : Bool :=
  if (active_task_ids now store).length ≥ cpuCores then false
  else if ¬ramAvailable then false
  else true

/-- Truthiness of a coroutine object.  `__is_possible_run_task` (line
190) and `__run_single_task` (line 212) both call an `async def` method
without `await`; the call merely builds a coroutine object, and any
coroutine object is truthy, so `if not <coroutine>:` never takes the
early-return branch and the body of the called method never runs. -/
def coroutine_is_truthy : Bool := true

/-- TaskPull.__is_possible_run_task (lines 189-209), as the truthiness
of its body when actually awaited.  Its own line 190 tests
`not self.__is_possible_run_any_task()` on an un-awaited coroutine, so
the global-admission early return is dead even here. -/
def is_possible_run_task (now : Nat) (store : RStore) (files : FileStore)
    (tid : Str) : Bool :=
  if ¬coroutine_is_truthy then false
  else
    match get_task_state now store tid with
    | none => false
    | some st =>
      if st.status ≠ strOf "ready" then false
      else if ¬is_file_exist files st.input_args_filename then false
      else if ¬is_file_exist files st.script_filename then false
      else true

/-- TaskPull.__run_single_task (lines 211-230).  Line 212 reads
`if not self.__is_possible_run_task(task_id=task_id): return` — the call
is not awaited, the coroutine object is truthy, and the guard never
fires.  The state is then re-read (a missing task raises ValueError out
of the loop: none), the script is spawned as a subprocess, and the state
is written back with the child pid and status 'running'. -/
def run_single_task (now : Nat) (nowStr : Str) (w : World) (tid : Str)
    (newPid : Int) : Option World :=
  if ¬coroutine_is_truthy then some w
  else
    match get_task_state now w.store tid with
    | none => none
    | some st =>
      let spawned' := w.spawned ++ [st.script_filename]
      let st' := { st with pid := newPid, status := strOf "running" }
      match update_task_state nowStr w.store tid st' with
      | none => none
      | some store' => some { w with store := store', spawned := spawned' }

/-- In-memory queues of the pull: `ready_pull` is the per-type dict of
asyncio queues (front of list = front of queue), `accepted_pull` and
`kill_pull` are plain queues. -/
structure PullState where
  readyPull : List (Str × List Str)
  acceptedPull : List Str
  killPull : List Str
deriving DecidableEq, Repr

/-- Python `dict.get(key, default)`. -/
def dictGetD (d : List (Str × List Str)) (k : Str) (dflt : List Str) : List Str :=
  match d.find? fun kv => kv.1 = k with
  | some kv => kv.2
  | none => dflt

/-- One iteration of TaskPull.run_tasks_block's while-loop (lines
236-245) up to the dequeue: when `ready_pull[task_type]` is empty the
loop sleeps (none); otherwise line 242 executes
`task_id = await self.__accepted_pull.get()` — the id is taken from the
accepted queue, not from the ready queue that was tested — suspending
forever when the accepted queue is empty (none).  Returns the dequeued
id and the queues after the dequeue. -/
def run_tasks_block_step (p : PullState) (taskType : Str) :
    Option (Str × PullState) :=
  let queue := dictGetD p.readyPull taskType []
  if queue.isEmpty then none
  else
    match p.acceptedPull with
    | [] => none
    | tid :: rest => some (tid, { p with acceptedPull := rest })

/-- TaskPull.__remove_task (lines 156-166), the body of one L6 cycle for
a dequeued id: re-read state (skip on ValueError), skip when no longer
accepted, else `redis.remove_task` followed by
`file_storage.remove_files(*state.all_filenames)`. -/
def remove_task_l6 (now : Nat) (w : World) (tid : Str) : World :=
  match get_task_state now w.store tid with
  | none => w
  | some st =>
    if ¬st.is_accepted then w
    else
      { w with
          store := remove_task w.store tid
          files := remove_files w.files st.all_filenames }

/-! ## Worker run lifecycle (gstream/worker/base.py) -/

/-- Outcome of the subclass kernel run `self._run()` as observed by the
exception handlers of `run`. -/
inductive RunOutcome
  | ok
  | noFreeRAM
  | noFreeGPU
  | otherError (msg : Str)
deriving DecidableEq, Repr

/-- BaseProcess._rollback (lines 124-134): re-read the state, apply
TaskState.rollback (status 'ready', pid -1), write it back. -/
def base_rollback (now : Nat) (nowStr : Str) (store : RStore) (tid : Str) :
    Option RStore :=
  if ¬is_task_exist store tid then none
  else
    match get_task_state now store tid with
    | none => none
    | some st => update_task_state nowStr store tid st.rollback

/-- Log line of the generic exception handler:
`Error in task with id {task_id}: exception {e}`. -/
def errorLogText (tid msg : Str) : Str :=
  strOf "Error in task with id " ++ tid ++ strOf ": exception " ++ msg

/-- GPUProcess.run (lines 267-294).  `card` is the value of the
`gpu_card` property (None when acquisition hit a resource shortage —
the property swallows those).  The NoFreeRAM/NoFreeGPU handlers first
render an f-string reading `gpu_card.uuid`: with a None card that raises
AttributeError inside the handler and nothing is written (none).  With a
card, they log and roll back.  The generic BaseException handler logs
the exception string and ALSO calls `self._rollback()` — no path of this
method writes status 'failed'.  On a normal return `_save_solution` and
`_finalize` run (abstracted as `saveAndFinalize`, subclass- and
filesystem-specific). -/
def gpu_process_run (now : Nat) (nowStr : Str) (store : RStore) (tid : Str)
    (card : Option Str) (outcome : RunOutcome)
    (saveAndFinalize : RStore → Option RStore) : Option RStore :=
  match outcome with
  | .ok => saveAndFinalize store
  | .noFreeRAM =>
    match card with
    | none => none
    | some _ =>
      if ¬is_task_exist store tid then none
      else base_rollback now nowStr (add_log_message nowStr store tid
        (strOf "busy now. Process not run now but will run later")) tid
  | .noFreeGPU =>
    match card with
    | none => none
    | some _ =>
      if ¬is_task_exist store tid then none
      else base_rollback now nowStr (add_log_message nowStr store tid
        (strOf "busy now.Process not run now but will run later")) tid
  | .otherError msg =>
    if ¬is_task_exist store tid then none
    else base_rollback now nowStr
      (add_log_message nowStr store tid (errorLogText tid msg)) tid

/-! ## HTTP surface (background_app/routers/task.py) -/

/-- Outcome of one endpoint call: a 200 with the store after its writes
(and the JSON body for /create), an HTTPException status, or a 500 from
an uncaught exception.  Error outcomes leave the store unchanged — every
modelled exception fires before any write. -/
inductive ApiResult
  | success (store : RStore) (body : Option Str)
  | badRequest
  | tooManyRequests
  | internalError
deriving DecidableEq, Repr

def MAXIMAL_TASKS_FOR_USER : Nat := 2

/-- create_task (lines 162-194): reject with 429 when the user's
existing task count is strictly greater than the cap; otherwise build a
fresh TaskState (defaults: status 'new') and add it.  An invalid task
type (pydantic KeyError) or a colliding task id (add_task KeyError)
escapes as a 500. -/
def create_task (now : Nat) (nowStr : Str) (store : RStore)
    (taskType uid : Str) (tid initFn inFn outFn scriptFn : Str) : ApiResult :=
  let tasksCount := (get_user_task_ids store uid).length
  if tasksCount > MAXIMAL_TASKS_FOR_USER then .tooManyRequests
  else
    match newTaskState now uid tid taskType initFn inFn outFn scriptFn with
    | none => .internalError
    | some st =>
      match add_task nowStr store st with
      | none => .internalError
      | some store' => .success store' (some st.task_id)

/-- accept_transfer with its decorators (lines 317-339; decorators apply
bottom-up, so the `check_finished_task` wrapper runs first).  That
wrapper reads the state directly — a missing task raises ValueError out
of the endpoint (500) — and rejects with 400 unless the status is
exactly 'finished' and the output args file exists.  `check_task_exist`
then re-checks existence (400), and the handler re-reads the state, sets
`is_accepted = True` and writes it back. -/
def accept_transfer (now : Nat) (nowStr : Str) (store : RStore)
    (files : FileStore) (tid : Str) : ApiResult :=
  match get_task_state now store tid with
  | none => .internalError
  | some st =>
    if st.status ≠ strOf "finished" then .badRequest
    else if ¬is_file_exist files st.output_args_filename then .badRequest
    else if ¬is_task_exist store tid then .badRequest
    else
      match get_task_state now store tid with
      | none => .internalError
      | some st2 =>
        match update_task_state nowStr store tid { st2 with is_accepted := true } with
        | none => .internalError
        | some store' => .success store' none

/-! ## Helper lemmas on slices -/

theorem drop_concat (xs ys : List Nat) : (xs ++ ys).drop xs.length = ys := by
  simp

theorem slice_at (pre mid post : List Nat) (i j : Nat)
    (hi : i = pre.length) (hj : j = pre.length + mid.length) :
    pySlice (pre ++ mid ++ post) i j = mid := by
  subst hi hj
  rw [pySlice_nat]
  · rw [List.append_assoc, List.take_append_eq_append_take, List.take_of_length_le (by omega)]
    have h2 : pre.length + mid.length - pre.length = mid.length := by omega
    rw [h2, List.take_append_eq_append_take, List.take_length,
      Nat.sub_self, List.take_zero, List.append_nil, drop_concat]
  · simp only [List.append_assoc, List.length_append]
    omega

theorem slice_to_end (pre post : List Nat) (i : Nat) (hi : i = pre.length) :
    (pre ++ post).drop i = post := by
  subst hi
  exact drop_concat pre post

theorem slice_at' (pre mid post : List Nat) (i j : Int)
    (hi : i = pre.length) (hj : j = pre.length + mid.length) :
    pySlice (pre ++ mid ++ post) i j = mid := by
  subst hi hj
  rw [← Nat.cast_add]
  exact slice_at pre mid post _ _ rfl rfl

theorem slice_suffix (pre post : List Nat) (i j : Int)
    (hi : i = pre.length) (hj : j = pre.length + post.length) :
    pySlice (pre ++ post) i j = post := by
  have h := slice_at' pre post [] i j hi hj
  simpa using h

theorem intInRange_bounds (v : Int) (h : intInRange v = true) :
    -2147483648 ≤ v ∧ v < 2147483648 := by
  simp only [intInRange, decide_eq_true_eq] at h
  omega

theorem intTypePack_two (x y : Int) (hx : intInRange x = true)
    (hy : intInRange y = true) :
    intTypePack [x, y] = some (intToBytes x ++ intToBytes y) := by
  simp [intTypePack, hx, hy]

theorem intTypeUnpack_two (x y : Int)
    (hx1 : -2147483648 ≤ x) (hx2 : x < 2147483648)
    (hy1 : -2147483648 ≤ y) (hy2 : y < 2147483648) :
    intTypeUnpack (intToBytes x ++ intToBytes y) 2 = some [x, y] := by
  have hlen : (intToBytes x ++ intToBytes y).length = 8 := by
    simp [intToBytes_length]
  simp only [intTypeUnpack, hlen]
  norm_num
  rw [bytesToIntList_intToBytes x _ hx1 hx2]
  rw [← List.append_nil (intToBytes y), bytesToIntList_intToBytes y _ hy1 hy2]
  rfl

/-- Deserializing a serialized envelope whose data length equals
`rows · cols · element size` recovers it exactly. -/
theorem create_from_bytes_concat (t : PyArrayType) (r c : Int) (d : List Nat)
    (hr : intInRange r = true) (hc : intInRange c = true)
    (hlen : (d.length : Int) = r * c * t.elementSize) :
    ArrayEnvelope.create_from_bytes (t.tag ++ (intToBytes r ++ intToBytes c) ++ d)
      = some ⟨t, r, c, d⟩ := by
  obtain ⟨hr1, hr2⟩ := intInRange_bounds r hr
  obtain ⟨hc1, hc2⟩ := intInRange_bounds c hc
  have hshape : (intToBytes r ++ intToBytes c).length = 8 := by
    simp [intToBytes_length]
  have h3 := intTypeUnpack_two r c hr1 hr2 hc1 hc2
  cases t with
  | int32 =>
    simp only [PyArrayType.elementSize] at hlen
    push_cast at hlen
    have h1 : getTypeFromBytes (PyArrayType.int32.tag ++
        (intToBytes r ++ intToBytes c) ++ d) = some .int32 := by
      simp [getTypeFromBytes, PyArrayType.tag, List.take_append_eq_append_take]
    simp only [ArrayEnvelope.create_from_bytes, h1]
    norm_num [PyArrayType.tag, PyArrayType.elementSize]
    have hL : (105 :: 110 :: 116 :: 51 :: 50 :: (intToBytes r ++ (intToBytes c ++ d)))
        = ([105, 110, 116, 51, 50] ++ (intToBytes r ++ intToBytes c)) ++ d := by
      simp
    have h2 : pySlice (105 :: 110 :: 116 :: 51 :: 50 ::
        (intToBytes r ++ (intToBytes c ++ d))) 5 13
        = intToBytes r ++ intToBytes c := by
      rw [hL]
      exact slice_at' _ _ _ 5 13 (by norm_num) (by rw [hshape]; norm_num)
    have h5 : pySlice (105 :: 110 :: 116 :: 51 :: 50 ::
        (intToBytes r ++ (intToBytes c ++ d))) 13 (13 + r * c * 4) = d := by
      rw [hL, ← hlen]
      exact slice_suffix _ _ 13 _ (by simp [intToBytes_length])
        (by simp [intToBytes_length])
    rw [h2, h3]
    simp only [intToBytes_length, h5]
    rw [if_neg (by push_cast; omega)]
  | float32 =>
    simp only [PyArrayType.elementSize] at hlen
    push_cast at hlen
    have h1 : getTypeFromBytes (PyArrayType.float32.tag ++
        (intToBytes r ++ intToBytes c) ++ d) = some .float32 := by
      simp [getTypeFromBytes, PyArrayType.tag, List.take_append_eq_append_take]
    simp only [ArrayEnvelope.create_from_bytes, h1]
    norm_num [PyArrayType.tag, PyArrayType.elementSize]
    have hL : (102 :: 108 :: 111 :: 97 :: 116 :: 51 :: 50 ::
        (intToBytes r ++ (intToBytes c ++ d)))
        = ([102, 108, 111, 97, 116, 51, 50] ++ (intToBytes r ++ intToBytes c)) ++ d := by
      simp
    have h2 : pySlice (102 :: 108 :: 111 :: 97 :: 116 :: 51 :: 50 ::
        (intToBytes r ++ (intToBytes c ++ d))) 7 15
        = intToBytes r ++ intToBytes c := by
      rw [hL]
      exact slice_at' _ _ _ 7 15 (by norm_num) (by rw [hshape]; norm_num)
    have h5 : pySlice (102 :: 108 :: 111 :: 97 :: 116 :: 51 :: 50 ::
        (intToBytes r ++ (intToBytes c ++ d))) 15 (15 + r * c * 4) = d := by
      rw [hL, ← hlen]
      exact slice_suffix _ _ 15 _ (by simp [intToBytes_length])
        (by simp [intToBytes_length])
    rw [h2, h3]
    simp only [intToBytes_length, h5]
    rw [if_neg (by push_cast; omega)]

/-- Claim C3, counterexample.  The claim includes "1-D view" envelopes —
`rows = 0` or `cols = 0` with data of the length of the non-zero
dimension — in the round-trip law, but `create_from_bytes` computes the
expected data size as `rows·cols·element_size = 0` for such envelopes
and slices zero bytes back: the int32 envelope with shape (0, 1) and
four data bytes deserializes to one with empty data, so
`Array.create_from_bytes(a.convert_to_bytes()) ≠ a`. -/
theorem c3_counterexample :
    claimC3Domain ⟨.int32, 0, 1, [0, 0, 0, 0]⟩ ∧
    arrayRoundTrip ⟨.int32, 0, 1, [0, 0, 0, 0]⟩ = some ⟨.int32, 0, 1, []⟩ ∧
    arrayRoundTrip ⟨.int32, 0, 1, [0, 0, 0, 0]⟩ ≠ some ⟨.int32, 0, 1, [0, 0, 0, 0]⟩ := by
  decide

/-- Claim C3, amended.  For every array envelope whose shape values are
within IntType.pack's accepted range and whose data length equals
`rows · cols · sizeof(type)` (which forces empty data when `rows = 0` or
`cols = 0`), deserializing the serialized bytes returns an equal
envelope: `Array.create_from_bytes(a.convert_to_bytes()) = a`. -/
theorem c3_array_roundtrip (a : ArrayEnvelope)
    (hr : intInRange a.rows_count = true) (hc : intInRange a.cols_count = true)
    (hlen : (a.data.length : Int) =
      a.rows_count * a.cols_count * a.type_.elementSize) :
    arrayRoundTrip a = some a := by
  obtain ⟨t, r, c, d⟩ := a
  simp only at hr hc hlen
  simp only [arrayRoundTrip, ArrayEnvelope.convert_to_bytes,
    intTypePack_two r c hr hc, Option.some_bind]
  exact create_from_bytes_concat t r c d hr hc hlen

/-- Claim C3, witness: the amended round trip evaluated on a concrete
float32 envelope with shape (2, 1). -/
theorem c3_witness :
    arrayRoundTrip ⟨.float32, 2, 1, [1, 2, 3, 4, 5, 6, 7, 8]⟩
      = some ⟨.float32, 2, 1, [1, 2, 3, 4, 5, 6, 7, 8]⟩ :=
  c3_array_roundtrip ⟨.float32, 2, 1, [1, 2, 3, 4, 5, 6, 7, 8]⟩
    (by decide) (by decide) (by decide)

theorem slice_begin (mid post : List Nat) (j : Int) (hj : j = mid.length) :
    pySlice (mid ++ post) 0 j = mid := by
  have h := slice_at' [] mid post 0 j (by simp) (by simpa using hj)
  simpa using h

theorem intTypePack_inv (l : List Int) (out : List Nat)
    (h : intTypePack l = some out) :
    l.all intInRange = true ∧ out = (l.map intToBytes).flatten := by
  simp only [intTypePack] at h
  split at h
  · exact absurd h (by simp)
  · split at h
    · exact ⟨by assumption, by simpa using h.symm⟩
    · exact absurd h (by simp)

theorem intTypeUnpack_one (x : Int)
    (hx1 : -2147483648 ≤ x) (hx2 : x < 2147483648) :
    intTypeUnpack (intToBytes x) 1 = some [x] := by
  simp only [intTypeUnpack, intToBytes_length]
  norm_num
  rw [← List.append_nil (intToBytes x), bytesToIntList_intToBytes x _ hx1 hx2]
  rfl

/-- Claim C8.  For every DelaysFinderParameters p (signals a float32
envelope, base_station_index < signals.rows, min_correlation a 64-bit
double pattern) whose serialization succeeds, deserializing the
serialized bytes returns an equal structure:
`DelaysFinderParameters.create_from_bytes(p.convert_to_bytes()) = p`,
with the layout window_size(int32) ‖ scanner_size(int32) ‖
min_correlation(double) ‖ base_station_index(int32) ‖ float32 array
envelope. -/
theorem c8_params_roundtrip (p : DelaysFinderParameters) (bs : List Nat)
    (htype : p.signals.type_ = .float32)
    (hbase : p.base_station_index < p.signals.rows_count)
    (hbits : p.min_correlation < 2 ^ 64)
    (hser : p.convert_to_bytes = some bs) :
    DelaysFinderParameters.create_from_bytes bs = some p := by
  obtain ⟨⟨t, r, c, d⟩, w, s, mc, b⟩ := p
  simp only at htype hbase hbits hser ⊢
  subst htype
  simp only [DelaysFinderParameters.convert_to_bytes,
    ArrayEnvelope.convert_to_bytes] at hser
  split at hser
  · exact absurd hser (by simp)
  case _ ws hws =>
  split at hser
  · exact absurd hser (by simp)
  case _ mcB hmc =>
  split at hser
  · exact absurd hser (by simp)
  case _ bB hb =>
  split at hser
  · exact absurd hser (by simp)
  case _ sb hsb =>
  split at hsb
  · exact absurd hsb (by simp)
  case _ shapeB hsp =>
  obtain ⟨hallws, hwsv⟩ := intTypePack_inv _ _ hws
  obtain ⟨hallb, hbv⟩ := intTypePack_inv _ _ hb
  obtain ⟨hallrc, hspv⟩ := intTypePack_inv _ _ hsp
  simp only [List.all_cons, List.all_nil, Bool.and_true, Bool.and_eq_true] at hallws hallb hallrc
  obtain ⟨hw1, hw2⟩ := intInRange_bounds w hallws.1
  obtain ⟨hs1, hs2⟩ := intInRange_bounds s hallws.2
  obtain ⟨hbb1, hbb2⟩ := intInRange_bounds b hallb
  obtain ⟨hr1, hr2⟩ := intInRange_bounds r hallrc.1
  obtain ⟨hc1, hc2⟩ := intInRange_bounds c hallrc.2
  simp only [List.map_cons, List.map_nil, List.flatten, List.append_nil] at hwsv hbv hspv
  subst hwsv hbv hspv
  simp only [doubleTypePack] at hmc
  split at hmc
  case _ hdr =>
    rw [Option.some.injEq] at hmc hser hsb
    subst hmc
    subst hsb
    subst hser
    have g1 : intToBytes w ++ intToBytes s ++ doubleToBytes mc ++ intToBytes b ++
        (PyArrayType.float32.tag ++ (intToBytes r ++ intToBytes c) ++ d)
        = (intToBytes w ++ intToBytes s) ++ (doubleToBytes mc ++ (intToBytes b ++
          (PyArrayType.float32.tag ++ ((intToBytes r ++ intToBytes c) ++ d)))) := by
      simp
    have g2 : intToBytes w ++ intToBytes s ++ doubleToBytes mc ++ intToBytes b ++
        (PyArrayType.float32.tag ++ (intToBytes r ++ intToBytes c) ++ d)
        = (intToBytes w ++ intToBytes s) ++ doubleToBytes mc ++ (intToBytes b ++
          (PyArrayType.float32.tag ++ ((intToBytes r ++ intToBytes c) ++ d))) := by
      simp
    have g3 : intToBytes w ++ intToBytes s ++ doubleToBytes mc ++ intToBytes b ++
        (PyArrayType.float32.tag ++ (intToBytes r ++ intToBytes c) ++ d)
        = ((intToBytes w ++ intToBytes s) ++ doubleToBytes mc) ++ intToBytes b ++
          (PyArrayType.float32.tag ++ ((intToBytes r ++ intToBytes c) ++ d)) := by
      simp
    have g4 : intToBytes w ++ intToBytes s ++ doubleToBytes mc ++ intToBytes b ++
        (PyArrayType.float32.tag ++ (intToBytes r ++ intToBytes c) ++ d)
        = (((intToBytes w ++ intToBytes s) ++ doubleToBytes mc) ++ intToBytes b) ++
          PyArrayType.float32.tag ++ ((intToBytes r ++ intToBytes c) ++ d) := by
      simp
    have g5 : intToBytes w ++ intToBytes s ++ doubleToBytes mc ++ intToBytes b ++
        (PyArrayType.float32.tag ++ (intToBytes r ++ intToBytes c) ++ d)
        = ((((intToBytes w ++ intToBytes s) ++ doubleToBytes mc) ++ intToBytes b) ++
          PyArrayType.float32.tag) ++ (intToBytes r ++ intToBytes c) ++ d := by
      simp
    have g6 : intToBytes w ++ intToBytes s ++ doubleToBytes mc ++ intToBytes b ++
        (PyArrayType.float32.tag ++ (intToBytes r ++ intToBytes c) ++ d)
        = (((((intToBytes w ++ intToBytes s) ++ doubleToBytes mc) ++ intToBytes b) ++
          PyArrayType.float32.tag) ++ (intToBytes r ++ intToBytes c)) ++ d := by
      simp
    have e1 : pySlice (intToBytes w ++ intToBytes s ++ doubleToBytes mc ++ intToBytes b ++
        (PyArrayType.float32.tag ++ (intToBytes r ++ intToBytes c) ++ d)) 0 8
        = intToBytes w ++ intToBytes s := by
      rw [g1]
      exact slice_begin _ _ 8 (by simp [intToBytes_length])
    have e2 : pySlice (intToBytes w ++ intToBytes s ++ doubleToBytes mc ++ intToBytes b ++
        (PyArrayType.float32.tag ++ (intToBytes r ++ intToBytes c) ++ d)) 8 16
        = doubleToBytes mc := by
      rw [g2]
      exact slice_at' _ _ _ 8 16 (by simp [intToBytes_length])
        (by simp [intToBytes_length, doubleToBytes_length])
    have e3 : pySlice (intToBytes w ++ intToBytes s ++ doubleToBytes mc ++ intToBytes b ++
        (PyArrayType.float32.tag ++ (intToBytes r ++ intToBytes c) ++ d)) 16 20
        = intToBytes b := by
      rw [g3]
      exact slice_at' _ _ _ 16 20 (by simp [intToBytes_length, doubleToBytes_length])
        (by simp [intToBytes_length, doubleToBytes_length])
    have e4 : pySlice (intToBytes w ++ intToBytes s ++ doubleToBytes mc ++ intToBytes b ++
        (PyArrayType.float32.tag ++ (intToBytes r ++ intToBytes c) ++ d)) 20 27
        = PyArrayType.float32.tag := by
      rw [g4]
      exact slice_at' _ _ _ 20 27
        (by simp [intToBytes_length, doubleToBytes_length])
        (by simp [intToBytes_length, doubleToBytes_length, PyArrayType.tag])
    have e5 : pySlice (intToBytes w ++ intToBytes s ++ doubleToBytes mc ++ intToBytes b ++
        (PyArrayType.float32.tag ++ (intToBytes r ++ intToBytes c) ++ d)) 27 35
        = intToBytes r ++ intToBytes c := by
      rw [g5]
      exact slice_at' _ _ _ 27 35
        (by simp [intToBytes_length, doubleToBytes_length, PyArrayType.tag])
        (by simp [intToBytes_length, doubleToBytes_length, PyArrayType.tag])
    have e6 : (intToBytes w ++ intToBytes s ++ doubleToBytes mc ++ intToBytes b ++
        (PyArrayType.float32.tag ++ (intToBytes r ++ intToBytes c) ++ d)).drop 35
        = d := by
      rw [g6]
      exact slice_to_end _ _ 35
        (by simp [intToBytes_length, doubleToBytes_length, PyArrayType.tag])
    have e7 : charTypeUnpack PyArrayType.float32.tag 7 = some PyArrayType.float32.tag := rfl
    simp only [DelaysFinderParameters.create_from_bytes, e1, e2, e3, e4, e5, e6, e7,
      intTypeUnpack_two w s hw1 hw2 hs1 hs2, bytesToDouble_doubleToBytes mc hbits,
      intTypeUnpack_one b hbb1 hbb2, intTypeUnpack_two r c hr1 hr2 hc1 hc2,
      if_pos rfl]
    simp only [if_true]
    rw [if_neg (by omega)]
  · exact absurd hmc (by simp)

set_option maxRecDepth 8000 in
/-- Claim C8, witness: the round trip applied to a concrete parameter
structure with a 1×1 float32 signals array. -/
theorem c8_witness :
    DelaysFinderParameters.create_from_bytes
      [1, 0, 0, 0, 2, 0, 0, 0, 0, 0, 0, 0, 0, 0, 0, 0, 0, 0, 0, 0,
       102, 108, 111, 97, 116, 51, 50, 1, 0, 0, 0, 1, 0, 0, 0, 9, 9, 9, 9]
      = some ⟨⟨.float32, 1, 1, [9, 9, 9, 9]⟩, 1, 2, 0, 0⟩ :=
  c8_params_roundtrip ⟨⟨.float32, 1, 1, [9, 9, 9, 9]⟩, 1, 2, 0, 0⟩ _
    rfl (by decide) (by decide) (by decide)

/-- Concrete single-task store: task "t1" of user "u1" whose stored JSON
carries modified_unix_time 5. -/
def c10Json : StateJson :=
  ⟨strOf "delays", strOf "ready", false, -1, false, 5,
   strOf "i.py", strOf "in", strOf "out", strOf "s.py"⟩

def c10Store : RStore :=
  [(stateKey (strOf "u1") (strOf "t1"), .json c10Json),
   (logKey (strOf "t1"), .str (strOf "L"))]

/-- Claim C10.  Every successful `get_task_state` read returns a record
whose `modified_unix_time` equals the wall clock of the read (`now`),
not the value stored in the :State JSON: the record is rebuilt through
the pydantic constructor, whose root validator overwrites the timestamp
on every construction. -/
theorem c10_restamp (now : Nat) (store : RStore) (tid : Str) (st : TaskState)
    (h : get_task_state now store tid = some st) :
    st.modified_unix_time = now := by
  simp only [get_task_state] at h
  split at h
  · exact absurd h (by simp)
  split at h
  case _ k =>
    split at h
    case _ j =>
      split at h
      case _ uid =>
        simp only [mkTaskState] at h
        split at h
        · injection h with h2
          subst h2
          rfl
        · exact absurd h (by simp)
      · exact absurd h (by simp)
    · exact absurd h (by simp)
  · exact absurd h (by simp)

/-- Claim C10, witness: reading `c10Store` (stored timestamp 5) at wall
clock 77 yields a record stamped 77. -/
theorem c10_witness :
    (⟨strOf "u1", strOf "t1", strOf "delays", strOf "ready", false, -1, false,
      77, strOf "i.py", strOf "in", strOf "out", strOf "s.py"⟩ :
      TaskState).modified_unix_time = 77 :=
  c10_restamp 77 c10Store (strOf "t1") _ (by decide)

def c1JsonA : StateJson :=
  ⟨strOf "delays", strOf "running", false, 7, false, 1,
   strOf "iA.py", strOf "inA", strOf "outA", strOf "sA.py"⟩

def c1JsonT : StateJson :=
  ⟨strOf "delays", strOf "ready", false, -1, false, 1,
   strOf "iT.py", strOf "inT", strOf "outT", strOf "s1.py"⟩

def c1World : World :=
  { store := [(stateKey (strOf "u1") (strOf "a1"), .json c1JsonA),
              (stateKey (strOf "u1") (strOf "t1"), .json c1JsonT),
              (logKey (strOf "a1"), .str (strOf "L")),
              (logKey (strOf "t1"), .str (strOf "L"))],
    files := [strOf "s1.py"],
    spawned := [] }

/-- Claim C1 (code divergence).  In `c1World` every admission condition
of the run loop fails for task "t1": the global gate is closed (one
running task "a1" against cpu_cores = 1) and the task's input-args file
is absent from the file store, so `__is_possible_run_task` — were it
awaited — returns false.  Yet `__run_single_task` spawns the subprocess
and writes status 'running' with the new pid, because line 212 tests
`not self.__is_possible_run_task(...)` on the un-awaited (truthy)
coroutine object and the guard never fires. -/
theorem c1_admission_bypassed :
    is_possible_run_task 100 c1World.store c1World.files (strOf "t1") = false ∧
    is_possible_run_any_task 100 c1World.store 1 true = false ∧
    ((run_single_task 100 (strOf "ts") c1World (strOf "t1") 555).map
      World.spawned) = some [strOf "s1.py"] ∧
    (((run_single_task 100 (strOf "ts") c1World (strOf "t1") 555).bind
      fun w => getStoredJson w.store (strOf "t1")).map StateJson.status)
      = some (strOf "running") ∧
    (((run_single_task 100 (strOf "ts") c1World (strOf "t1") 555).bind
      fun w => getStoredJson w.store (strOf "t1")).map StateJson.pid)
      = some 555 := by
  decide

def c2Pull : PullState :=
  ⟨[(strOf "delays", [strOf "T1"])], [strOf "T2"], []⟩

/-- Claim C2 (code divergence).  With "T1" queued in
`ready_pull['delays']` and "T2" queued in `accepted_pull`, one iteration
of `run_tasks_block('delays')` dequeues "T2" from the accepted queue
(line 242 reads `await self.__accepted_pull.get()`) and leaves "T1" in
the ready queue — the claim says the id comes from
`ready_index[type]` and the accepted queue is never consumed. -/
theorem c2_wrong_queue :
    dictGetD c2Pull.readyPull (strOf "delays") [] = [strOf "T1"] ∧
    run_tasks_block_step c2Pull (strOf "delays")
      = some (strOf "T2", ⟨[(strOf "delays", [strOf "T1"])], [], []⟩) ∧
    strOf "T2" ≠ strOf "T1" := by
  decide

def c4Json : StateJson :=
  ⟨strOf "delays", strOf "finished", true, -1, false, 9,
   strOf "init.py", strOf "inT", strOf "outT", strOf "sT.py"⟩

def c4World : World :=
  { store := [(stateKey (strOf "u1") (strOf "T"), .json c4Json),
              (logKey (strOf "T"), .str (strOf "L"))],
    files := [strOf "inT", strOf "sT.py", strOf "outT", strOf "init.py"],
    spawned := [] }

/-- Claim C4 (code divergence).  One L6 cycle on a terminal accepted
task "T" whose four artifact files all exist: the `:State` key survives
(`remove_task` passes the glob `'*Task:T:State'` to DEL, which takes
literal key names), the log key is deleted, and only the three filenames
of `TaskState.all_filenames` are removed from the file store — the init
script file remains.  The claim requires the `:State` key and all four
files to be deleted. -/
theorem c4_cleanup_incomplete :
    (remove_task_l6 100 c4World (strOf "T")).store
      = [(stateKey (strOf "u1") (strOf "T"), .json c4Json)] ∧
    is_task_exist (remove_task_l6 100 c4World (strOf "T")).store (strOf "T")
      = true ∧
    (remove_task_l6 100 c4World (strOf "T")).files = [strOf "init.py"] := by
  decide

def c5Family (j : StateJson) (lg : Str) : RStore :=
  [(stateKey (strOf "u1") (strOf "t1"), .json j),
   (logKey (strOf "t1"), .str lg)]

def c5Json : StateJson :=
  ⟨strOf "delays", strOf "ready", false, -1, false, 3,
   strOf "i.py", strOf "in", strOf "out", strOf "s.py"⟩

def c5Stale : TaskState :=
  ⟨strOf "u1", strOf "t1", strOf "delays", strOf "ready", false, -1, false, 5,
   strOf "i.py", strOf "in", strOf "out", strOf "s.py"⟩

/-- Claim C5, counterexample.  A model whose `modified_unix_time` is 5
(its construction time) written through `update_task_state` at wall
clock 100 is stored with timestamp 5: `update_task_state` performs no
refresh of its own before serializing, contradicting the claim that the
write re-stamps `modified_at` to the time of the write. -/
theorem c5_counterexample :
    ((update_task_state (strOf "100") (c5Family c5Json (strOf "L"))
        (strOf "t1") c5Stale).bind
      fun s => getStoredJson s (strOf "t1")).map StateJson.modified_unix_time
      = some 5 ∧ (5 : Nat) ≠ 100 := by
  decide

/-- Claim C5, amended.  `update_task_state` serializes
`modified_unix_time` exactly as held on the model (no refresh inside the
store write); the refresh happens at model construction instead — the
pydantic root validator stamps the current clock — so a write whose
model was just read or constructed carries the construction time, and
timestamps are non-decreasing (not strictly increasing, and stale if the
model is held across time) across such writes. -/
theorem c5_amended (j : StateJson) (lg nowStr : Str) (st : TaskState)
    (now : Nat) (uid2 tid2 : Str) (j2 : StateJson) (st2 : TaskState)
    (h2 : mkTaskState now uid2 tid2 j2 = some st2) :
    ((update_task_state nowStr (c5Family j lg) (strOf "t1") st).bind
      fun s => getStoredJson s (strOf "t1")).map StateJson.modified_unix_time
      = some st.modified_unix_time
    ∧ st2.modified_unix_time = now := by
  constructor
  · rfl
  · simp only [mkTaskState] at h2
    split at h2
    · injection h2 with h3
      subst h3
      rfl
    · exact absurd h2 (by simp)

/-- Claim C5, witness: both amended conjuncts evaluated concretely — the
store write keeps the model's timestamp 5, and a model constructed at 44
is stamped 44. -/
theorem c5_witness :
    ((update_task_state (strOf "100") (c5Family c5Json (strOf "L"))
        (strOf "t1") c5Stale).bind
      fun s => getStoredJson s (strOf "t1")).map StateJson.modified_unix_time
      = some c5Stale.modified_unix_time
    ∧ (⟨strOf "u2", strOf "t2", strOf "delays", strOf "new", false, -1, false,
        44, strOf "a", strOf "b", strOf "c", strOf "d"⟩ :
        TaskState).modified_unix_time = 44 :=
  c5_amended c5Json (strOf "L") (strOf "100") c5Stale 44 (strOf "u2")
    (strOf "t2") ⟨strOf "delays", strOf "new", false, -1, false, 9,
      strOf "a", strOf "b", strOf "c", strOf "d"⟩ _ (by decide)

def storedAcceptedOf (r : ApiResult) (tid : Str) : Option Bool :=
  match r with
  | .success s _ => (getStoredJson s tid).map StateJson.is_accepted
  | _ => none

def c6Family (j : StateJson) (lg : Str) : RStore :=
  [(stateKey (strOf "u1") (strOf "t1"), .json j),
   (logKey (strOf "t1"), .str lg)]

def c6Json : StateJson :=
  ⟨strOf "delays", strOf "killed", false, -1, true, 9,
   strOf "i.py", strOf "in", strOf "out", strOf "s.py"⟩

/-- Claim C6, counterexample.  An existing task in the terminal state
'killed' whose output args file exists in the file store is rejected by
/accept with 400: `check_finished_task` requires status exactly
'finished', not any terminal status. -/
theorem c6_counterexample :
    accept_transfer 100 (strOf "ts") (c6Family c6Json (strOf "L"))
      [strOf "out"] (strOf "t1") = .badRequest ∧
    c6Json.status = strOf "killed" ∧
    is_file_exist [strOf "out"] c6Json.output_args_filename = true := by
  decide

/-- Claim C6, amended.  /accept requires status exactly 'finished'
together with the result file present: for an existing task it sets
`is_accepted = true` and returns 200 when `status = finished` and the
output args file exists; when the status is not 'finished' (including
the terminal states 'failed' and 'killed') or the output file is
missing, it fails with 400 and writes nothing. -/
theorem c6_amended (jt js : Str) (ja : Bool) (jp : Int) (jk : Bool) (jm : Nat)
    (ji jin jout jsc : Str) (files : FileStore) (lg nowStr : Str) (now : Nat)
    (htype : jt = strOf "delays") :
    (js = strOf "finished" →
      is_file_exist files jout = true →
      storedAcceptedOf
        (accept_transfer now nowStr
          (c6Family ⟨jt, js, ja, jp, jk, jm, ji, jin, jout, jsc⟩ lg) files
          (strOf "t1")) (strOf "t1") = some true)
    ∧ (js ≠ strOf "finished" →
      accept_transfer now nowStr
        (c6Family ⟨jt, js, ja, jp, jk, jm, ji, jin, jout, jsc⟩ lg) files
        (strOf "t1") = .badRequest)
    ∧ (is_file_exist files jout = false →
      accept_transfer now nowStr
        (c6Family ⟨jt, js, ja, jp, jk, jm, ji, jin, jout, jsc⟩ lg) files
        (strOf "t1") = .badRequest) := by
  subst htype
  refine ⟨?_, ?_, ?_⟩
  · intro h1 h2
    subst h1
    have hst : get_task_state now
        (c6Family ⟨strOf "delays", strOf "finished", ja, jp, jk, jm, ji, jin,
          jout, jsc⟩ lg) (strOf "t1")
        = some ⟨strOf "u1", strOf "t1", strOf "delays", strOf "finished", ja,
          jp, jk, now, ji, jin, jout, jsc⟩ := rfl
    simp only [accept_transfer, storedAcceptedOf, hst]
    rw [h2]
    rfl
  · intro h1
    have hst : get_task_state now
        (c6Family ⟨strOf "delays", js, ja, jp, jk, jm, ji, jin,
          jout, jsc⟩ lg) (strOf "t1")
        = some ⟨strOf "u1", strOf "t1", strOf "delays", js, ja,
          jp, jk, now, ji, jin, jout, jsc⟩ := rfl
    simp only [accept_transfer, hst]
    rw [if_pos h1]
  · intro h3
    by_cases hjs : js = strOf "finished"
    · subst hjs
      have hst : get_task_state now
          (c6Family ⟨strOf "delays", strOf "finished", ja, jp, jk, jm, ji, jin,
            jout, jsc⟩ lg) (strOf "t1")
          = some ⟨strOf "u1", strOf "t1", strOf "delays", strOf "finished", ja,
            jp, jk, now, ji, jin, jout, jsc⟩ := rfl
      simp only [accept_transfer, hst]
      rw [h3]
      rfl
    · have hst : get_task_state now
          (c6Family ⟨strOf "delays", js, ja, jp, jk, jm, ji, jin,
            jout, jsc⟩ lg) (strOf "t1")
          = some ⟨strOf "u1", strOf "t1", strOf "delays", js, ja,
            jp, jk, now, ji, jin, jout, jsc⟩ := rfl
      simp only [accept_transfer, hst]
      rw [if_pos hjs]

/-- Claim C6, witness: the amended behavior evaluated concretely —
accepting a finished task with its output present stores
`is_accepted = true`; a failed task with output present gets 400. -/
theorem c6_witness :
    storedAcceptedOf
      (accept_transfer 100 (strOf "ts")
        (c6Family ⟨strOf "delays", strOf "finished", false, -1, false, 9,
          strOf "i.py", strOf "in", strOf "out", strOf "s.py"⟩ (strOf "L"))
        [strOf "out"] (strOf "t1")) (strOf "t1") = some true ∧
    accept_transfer 100 (strOf "ts")
      (c6Family ⟨strOf "delays", strOf "failed", false, -1, false, 9,
        strOf "i.py", strOf "in", strOf "out", strOf "s.py"⟩ (strOf "L"))
      [strOf "out"] (strOf "t1") = .badRequest :=
  ⟨(c6_amended (strOf "delays") (strOf "finished") false (-1) false 9
      (strOf "i.py") (strOf "in") (strOf "out") (strOf "s.py")
      [strOf "out"] (strOf "L") (strOf "ts") 100 rfl).1 rfl (by decide),
   (c6_amended (strOf "delays") (strOf "failed") false (-1) false 9
      (strOf "i.py") (strOf "in") (strOf "out") (strOf "s.py")
      [strOf "out"] (strOf "L") (strOf "ts") 100 rfl).2.1 (by decide)⟩

def c7Family (j : StateJson) (lg : Str) : RStore :=
  [(stateKey (strOf "u1") (strOf "t1"), .json j),
   (logKey (strOf "t1"), .str lg)]

def c7Json : StateJson :=
  ⟨strOf "delays", strOf "running", false, 7, false, 9,
   strOf "i.py", strOf "in", strOf "out", strOf "s.py"⟩

/-- Claim C7, counterexample.  A generic (non-resource) uncaught error
in `GPUProcess.run` — the run method of the actual worker
(`DelaysFinder`) — does not set the stored status to 'failed': its
BaseException handler logs the exception string and then calls
`self._rollback()`, leaving the task stored as status 'ready' with
pid −1, exactly like resource exhaustion. -/
theorem c7_counterexample :
    (((gpu_process_run 100 (strOf "ts") (c7Family c7Json (strOf "L"))
        (strOf "t1") (some (strOf "gpu0")) (.otherError (strOf "boom"))
        some).bind
      fun s => getStoredJson s (strOf "t1")).map StateJson.status)
      = some (strOf "ready") ∧
    (((gpu_process_run 100 (strOf "ts") (c7Family c7Json (strOf "L"))
        (strOf "t1") (some (strOf "gpu0")) (.otherError (strOf "boom"))
        some).bind
      fun s => getStoredJson s (strOf "t1")).map StateJson.pid)
      = some (-1) ∧
    strOf "ready" ≠ strOf "failed" := by
  decide

/-- Claim C7, amended.  In `GPUProcess.run`, every uncaught error from
the kernel run — no-free-RAM, no-free-GPU (each with a GPU card held,
whose uuid the handler's log line reads), or any other exception — logs
a message and triggers rollback, writing `status = ready` and
`pid = −1`; no path of this method writes `status = failed`.  (The
'failed' write exists only in `BaseProcess.run`, which the GPU worker
overrides; that path also assigns the raw `TaskStatus.FAILED` enum
member instead of its string value, so its store write would fail to
serialize.) -/
theorem c7_amended (jt js : Str) (ja : Bool) (jp : Int) (jk : Bool) (jm : Nat)
    (ji jin jout jsc : Str) (lg nowStr msg : Str) (now : Nat) (card : Str)
    (cardOpt : Option Str) (k : RStore → Option RStore)
    (htype : jt = strOf "delays") :
    (((gpu_process_run now nowStr
        (c7Family ⟨jt, js, ja, jp, jk, jm, ji, jin, jout, jsc⟩ lg)
        (strOf "t1") cardOpt (.otherError msg) k).bind
      fun s => getStoredJson s (strOf "t1")).map StateJson.status)
      = some (strOf "ready") ∧
    (((gpu_process_run now nowStr
        (c7Family ⟨jt, js, ja, jp, jk, jm, ji, jin, jout, jsc⟩ lg)
        (strOf "t1") cardOpt (.otherError msg) k).bind
      fun s => getStoredJson s (strOf "t1")).map StateJson.pid)
      = some (-1) ∧
    (((gpu_process_run now nowStr
        (c7Family ⟨jt, js, ja, jp, jk, jm, ji, jin, jout, jsc⟩ lg)
        (strOf "t1") (some card) .noFreeRAM k).bind
      fun s => getStoredJson s (strOf "t1")).map StateJson.status)
      = some (strOf "ready") ∧
    (((gpu_process_run now nowStr
        (c7Family ⟨jt, js, ja, jp, jk, jm, ji, jin, jout, jsc⟩ lg)
        (strOf "t1") (some card) .noFreeRAM k).bind
      fun s => getStoredJson s (strOf "t1")).map StateJson.pid)
      = some (-1) ∧
    (((gpu_process_run now nowStr
        (c7Family ⟨jt, js, ja, jp, jk, jm, ji, jin, jout, jsc⟩ lg)
        (strOf "t1") (some card) .noFreeGPU k).bind
      fun s => getStoredJson s (strOf "t1")).map StateJson.status)
      = some (strOf "ready") ∧
    (((gpu_process_run now nowStr
        (c7Family ⟨jt, js, ja, jp, jk, jm, ji, jin, jout, jsc⟩ lg)
        (strOf "t1") (some card) .noFreeGPU k).bind
      fun s => getStoredJson s (strOf "t1")).map StateJson.pid)
      = some (-1) := by
  subst htype
  exact ⟨rfl, rfl, rfl, rfl, rfl, rfl⟩

/-- Claim C7, witness: the amended rollback behavior evaluated on a
concrete running task for all three error outcomes. -/
theorem c7_witness :
    (((gpu_process_run 100 (strOf "ts") (c7Family c7Json (strOf "L"))
        (strOf "t1") none (.otherError (strOf "boom")) some).bind
      fun s => getStoredJson s (strOf "t1")).map StateJson.status)
      = some (strOf "ready") ∧
    (((gpu_process_run 100 (strOf "ts") (c7Family c7Json (strOf "L"))
        (strOf "t1") none (.otherError (strOf "boom")) some).bind
      fun s => getStoredJson s (strOf "t1")).map StateJson.pid)
      = some (-1) ∧
    (((gpu_process_run 100 (strOf "ts") (c7Family c7Json (strOf "L"))
        (strOf "t1") (some (strOf "gpu0")) .noFreeRAM some).bind
      fun s => getStoredJson s (strOf "t1")).map StateJson.status)
      = some (strOf "ready") ∧
    (((gpu_process_run 100 (strOf "ts") (c7Family c7Json (strOf "L"))
        (strOf "t1") (some (strOf "gpu0")) .noFreeRAM some).bind
      fun s => getStoredJson s (strOf "t1")).map StateJson.pid)
      = some (-1) ∧
    (((gpu_process_run 100 (strOf "ts") (c7Family c7Json (strOf "L"))
        (strOf "t1") (some (strOf "gpu0")) .noFreeGPU some).bind
      fun s => getStoredJson s (strOf "t1")).map StateJson.status)
      = some (strOf "ready") ∧
    (((gpu_process_run 100 (strOf "ts") (c7Family c7Json (strOf "L"))
        (strOf "t1") (some (strOf "gpu0")) .noFreeGPU some).bind
      fun s => getStoredJson s (strOf "t1")).map StateJson.pid)
      = some (-1) :=
  c7_amended (strOf "delays") (strOf "running") false 7 false 9
    (strOf "i.py") (strOf "in") (strOf "out") (strOf "s.py")
    (strOf "L") (strOf "ts") (strOf "boom") 100 (strOf "gpu0") none some rfl

def apiBody : ApiResult → Option (Option Str)
  | .success _ b => some b
  | _ => none

def storedStatusOf (r : ApiResult) (tid : Str) : Option Str :=
  match r with
  | .success s _ => (getStoredJson s tid).map StateJson.status
  | _ => none

def c9Store (j1 j2 : StateJson) : RStore :=
  [(stateKey (strOf "u1") (strOf "a1"), .json j1),
   (stateKey (strOf "u1") (strOf "a2"), .json j2)]

def c9Json : StateJson :=
  ⟨strOf "delays", strOf "new", false, -1, false, 9,
   strOf "i.py", strOf "in", strOf "out", strOf "s.py"⟩

def c9Store3 : RStore :=
  [(stateKey (strOf "u1") (strOf "a1"), .json c9Json),
   (stateKey (strOf "u1") (strOf "a2"), .json c9Json),
   (stateKey (strOf "u1") (strOf "a3"), .json c9Json)]

/-- Claim C9.  /create checks the per-user task count with strict `>`
against the configured maximum (2): any request whose existing count
exceeds the cap is rejected with 429 ('Too many requests. Try again
later.') before anything is written, while a user at the cap (count = 2,
i.e. at or below it) is allowed — a fresh TaskState with status 'new' is
stored and its task_id is returned. -/
theorem c9_create_cap :
    (∀ (now : Nat) (nowStr : Str) (store : RStore)
      (taskType uid tid i n o s : Str),
      (get_user_task_ids store uid).length > MAXIMAL_TASKS_FOR_USER →
      create_task now nowStr store taskType uid tid i n o s = .tooManyRequests)
    ∧ (∀ (now : Nat) (nowStr : Str) (j1 j2 : StateJson) (i n o s : Str),
      apiBody (create_task now nowStr (c9Store j1 j2) (strOf "delays")
        (strOf "u1") (strOf "t3") i n o s) = some (some (strOf "t3"))
      ∧ storedStatusOf (create_task now nowStr (c9Store j1 j2) (strOf "delays")
        (strOf "u1") (strOf "t3") i n o s) (strOf "t3") = some (strOf "new")
      ∧ (get_user_task_ids (c9Store j1 j2) (strOf "u1")).length
          = MAXIMAL_TASKS_FOR_USER) := by
  constructor
  · intro now nowStr store taskType uid tid i n o s h
    simp only [create_task]
    rw [if_pos h]
  · intro now nowStr j1 j2 i n o s
    exact ⟨rfl, rfl, rfl⟩

/-- Claim C9, witness: a user with three existing tasks is rejected with
429; a user with exactly two (the cap) gets a task created. -/
theorem c9_witness :
    create_task 100 (strOf "ts") c9Store3 (strOf "delays") (strOf "u1")
      (strOf "t4") (strOf "a") (strOf "b") (strOf "c") (strOf "d")
      = .tooManyRequests ∧
    apiBody (create_task 100 (strOf "ts") (c9Store c9Json c9Json)
      (strOf "delays") (strOf "u1") (strOf "t3") (strOf "a") (strOf "b")
      (strOf "c") (strOf "d")) = some (some (strOf "t3")) :=
  ⟨c9_create_cap.1 100 (strOf "ts") c9Store3 (strOf "delays") (strOf "u1")
      (strOf "t4") (strOf "a") (strOf "b") (strOf "c") (strOf "d") (by decide),
   (c9_create_cap.2 100 (strOf "ts") c9Json c9Json (strOf "a") (strOf "b")
      (strOf "c") (strOf "d")).1⟩
